import Mathlib

/-!
Verification development for the audo HTTP-framework core: a shallow
embedding, in Lean, of the fixed-window rate limiter (`src/rateLimiter.ts`),
the route table and matcher (`src/routes.ts` and `matchRoute` in the server
module), the security-header injection step, and the body-parsing /
dispatch part of the per-request pipeline, together with theorems settling
the specification claims about them.

Conventions of the embedding:
* JavaScript `Map<string, V>` values are modelled as insertion-ordered
  association lists `List (String × V)`; `Map.get` is `mapGet` and
  `Map.set` is `mapSet` (an in-place overwrite that keeps the original
  position of an existing key, like the JS `Map`).
* JavaScript numbers appearing here (times, counters, limits) are integral
  in the source, far below 2^53, and are modelled as `Int`.
* Code that can throw is modelled in `Except`; a `JsErr` value marks the
  exception that the corresponding JS expression would raise.
-/

/-- JS `Map.get`: first (and only) binding of `key`, if present. -/
def mapGet {β : Type} : List (String × β) → String → Option β
  | [], _ => none
  | (k, v) :: rest, key => if k = key then some v else mapGet rest key

/-- JS `Map.set` / object-key assignment: overwrite in place when the key is
already bound (keeping its position), append otherwise. -/
def mapSet {β : Type} : List (String × β) → String → β → List (String × β)
  | [], key, v => [(key, v)]
  | (k, w) :: rest, key, v =>
    if k = key then (key, v) :: rest else (k, w) :: mapSet rest key v

theorem mapGet_mapSet {β : Type} (st : List (String × β)) (key k : String) (v : β) :
    mapGet (mapSet st key v) k = if k = key then some v else mapGet st k := by
  induction st with
  | nil =>
    by_cases hk : k = key
    · simp [mapGet, mapSet, hk]
    · have hk' : ¬ key = k := fun h => hk h.symm
      simp [mapGet, mapSet, hk, hk']
  | cons hd tl ih =>
    obtain ⟨k', w⟩ := hd
    by_cases h1 : k' = key
    · subst h1
      by_cases hk : k = k'
      · subst hk
        simp [mapGet, mapSet]
      · have hk' : ¬ k' = k := fun h => hk h.symm
        simp [mapGet, mapSet, hk, hk']
    · by_cases hk2 : k' = k
      · subst hk2
        simp [mapGet, mapSet, h1]
      · simp [mapGet, mapSet, h1, hk2, ih]

--========================================--
-- Rate limiter (src/rateLimiter.ts)
--========================================--

/-- One entry of the rate limiter's store (`RateLimitStore` in the source):
requests counted in the current window, and the instant the window ends. -/
structure RLEntry where
  count : Int
  resetTime : Int
  deriving DecidableEq, Repr

/-- The value returned by `RateLimiter.check`. -/
structure CheckResult where
  allowed : Bool
  remaining : Int
  deriving DecidableEq, Repr

/-- The `RateLimiter` class state: configuration fields fixed by the
constructor, plus the mutable per-key store. -/
structure RateLimiter where
  windowMs : Int
  max : Int
  message : String
  statusCode : Int
  store : List (String × RLEntry)
  deriving DecidableEq, Repr

/-- JS `a || b` on strings: `b` when `a` is the empty string (falsy). -/
def jsOrStr (a b : String) : String := if a = "" then b else a

/-- JS `a || b` on numbers: `b` when `a` is `0` (falsy). -/
def jsOrInt (a b : Int) : Int := if a = 0 then b else a

/-- The `RateLimiter` constructor: store starts empty; `message` defaults to
"Too many requests, please try again later" and `statusCode` to 429 via
JS `||`. Optional arguments are `none` when the caller omitted them. -/
def mkRateLimiter (windowMs max : Int) (message? : Option String)
    (statusCode? : Option Int) : RateLimiter :=
  { windowMs := windowMs
    max := max
    message := jsOrStr (message?.getD "") "Too many requests, please try again later"
    statusCode := jsOrInt (statusCode?.getD 0) 429
    store := [] }

/-- `RateLimiter.check(ip)` at instant `now` (the source reads
`Date.now()`); returns the updated limiter together with the
`{allowed, remaining}` result. The source mutates the found entry in
place, which on an association list is `mapSet` at the same key. -/
def RateLimiter.check (rl : RateLimiter) (now : Int) (ip : String) :
    RateLimiter × CheckResult :=
  match mapGet rl.store ip with
  | none =>
    ({ rl with store := mapSet rl.store ip ⟨1, now + rl.windowMs⟩ },
      ⟨true, rl.max - 1⟩)
  | some entry =>
    if now > entry.resetTime then
      ({ rl with store := mapSet rl.store ip ⟨1, now + rl.windowMs⟩ },
        ⟨true, rl.max - 1⟩)
    else if entry.count ≥ rl.max then
      (rl, ⟨false, 0⟩)
    else
      ({ rl with store := mapSet rl.store ip ⟨entry.count + 1, entry.resetTime⟩ },
        ⟨true, rl.max - (entry.count + 1)⟩)

/-- Run a sequence of `check` calls, each given as `(now, ip)`, threading
the limiter state. -/
def runChecks : RateLimiter → List (Int × String) → RateLimiter
  | rl, [] => rl
  | rl, (now, ip) :: calls => runChecks (rl.check now ip).1 calls

--========================================--
-- String helpers (JS string primitives on List Char)
--========================================--

/-- JS `s.toUpperCase()` (the method strings here are ASCII). -/
def jsToUpper (s : String) : String := ⟨s.data.map Char.toUpper⟩

/-- JS `s.toLowerCase()` (the method strings here are ASCII). -/
def jsToLower (s : String) : String := ⟨s.data.map Char.toLower⟩

/-- JS `s.startsWith(pre)`. -/
def jsStartsWith (s pre : String) : Bool := pre.data.isPrefixOf s.data

/-- JS `s.slice(1)`. -/
def jsSlice1 (s : String) : String := ⟨s.data.drop 1⟩

/-- Helper for `splitSlash`: `acc` is the current (reversed) segment. -/
def splitSlashAux : List Char → List Char → List String
  | [], acc => [⟨acc.reverse⟩]
  | '/' :: rest, acc => (⟨acc.reverse⟩ : String) :: splitSlashAux rest []
  | c :: rest, acc => splitSlashAux rest (c :: acc)

/-- JS `s.split("/")`: all `/`-delimited parts, empty parts included. -/
def splitSlash (s : String) : List String := splitSlashAux s.data []

/-- JS `s.split("/").filter(Boolean)`: the non-empty `/`-delimited
segments of a path or pattern. -/
def splitSegs (s : String) : List String :=
  (splitSlash s).filter (fun seg => seg ≠ "")

/-- Helper for `strIncludes`: does `needle` occur in the haystack? -/
def includesAux (needle : List Char) : List Char → Bool
  | [] => needle.isPrefixOf []
  | c :: rest => needle.isPrefixOf (c :: rest) || includesAux needle rest

/-- JS `hay.includes(needle)` (substring containment). -/
def strIncludes (hay needle : String) : Bool := includesAux needle.data hay.data

--========================================--
-- decodeURIComponent (ECMA-262 Decode, strict UTF-8)
--========================================--

/-- Value of one hexadecimal digit, `none` for a non-hex character. -/
def hexVal (c : Char) : Option Nat :=
  if '0' ≤ c ∧ c ≤ '9' then some (c.toNat - 48)
  else if 'A' ≤ c ∧ c ≤ 'F' then some (c.toNat - 55)
  else if 'a' ≤ c ∧ c ≤ 'f' then some (c.toNat - 87)
  else none

/-- Total byte count (leading byte included) of a UTF-8 sequence whose
leading byte is `b`; `0` when `b` is not a valid leading byte. -/
def utf8Len (b : Nat) : Nat :=
  if 0xC2 ≤ b ∧ b ≤ 0xDF then 2
  else if 0xE0 ≤ b ∧ b ≤ 0xEF then 3
  else if 0xF0 ≤ b ∧ b ≤ 0xF4 then 4
  else 0

/-- Lower bound of the admissible second byte for leading byte `b`. -/
def utf8SecondLo (b : Nat) : Nat :=
  if b = 0xE0 then 0xA0 else if b = 0xF0 then 0x90 else 0x80

/-- Upper bound of the admissible second byte for leading byte `b`. -/
def utf8SecondHi (b : Nat) : Nat :=
  if b = 0xED then 0x9F else if b = 0xF4 then 0x8F else 0xBF

/-- `decodeURIComponent` on a character list: percent-escapes are decoded
as strict UTF-8 (every continuation byte must itself be a `%XX` escape);
`none` models the `URIError` the JS builtin throws on a malformed escape
or an invalid byte sequence. Unescaped characters pass through. -/
def decodeAux : List Char → Option (List Char)
  | [] => some []
  | '%' :: a₁ :: a₂ :: rest =>
    match hexVal a₁, hexVal a₂ with
    | some h₁, some h₂ =>
      let b₁ := 16 * h₁ + h₂
      if b₁ < 0x80 then
        (decodeAux rest).map (fun tail => Char.ofNat b₁ :: tail)
      else if utf8Len b₁ = 2 then
        match rest with
        | '%' :: c₁ :: c₂ :: rest₂ =>
          match hexVal c₁, hexVal c₂ with
          | some g₁, some g₂ =>
            let b₂ := 16 * g₁ + g₂
            if utf8SecondLo b₁ ≤ b₂ ∧ b₂ ≤ utf8SecondHi b₁ then
              (decodeAux rest₂).map
                (fun tail => Char.ofNat ((b₁ - 0xC0) * 64 + (b₂ - 0x80)) :: tail)
            else none
          | _, _ => none
        | _ => none
      else if utf8Len b₁ = 3 then
        match rest with
        | '%' :: c₁ :: c₂ :: '%' :: d₁ :: d₂ :: rest₂ =>
          match hexVal c₁, hexVal c₂, hexVal d₁, hexVal d₂ with
          | some g₁, some g₂, some f₁, some f₂ =>
            let b₂ := 16 * g₁ + g₂
            let b₃ := 16 * f₁ + f₂
            if (utf8SecondLo b₁ ≤ b₂ ∧ b₂ ≤ utf8SecondHi b₁) ∧
                (0x80 ≤ b₃ ∧ b₃ ≤ 0xBF) then
              (decodeAux rest₂).map
                (fun tail =>
                  Char.ofNat ((b₁ - 0xE0) * 4096 + (b₂ - 0x80) * 64 + (b₃ - 0x80)) :: tail)
            else none
          | _, _, _, _ => none
        | _ => none
      else if utf8Len b₁ = 4 then
        match rest with
        | '%' :: c₁ :: c₂ :: '%' :: d₁ :: d₂ :: '%' :: e₁ :: e₂ :: rest₂ =>
          match hexVal c₁, hexVal c₂, hexVal d₁, hexVal d₂, hexVal e₁, hexVal e₂ with
          | some g₁, some g₂, some f₁, some f₂, some j₁, some j₂ =>
            let b₂ := 16 * g₁ + g₂
            let b₃ := 16 * f₁ + f₂
            let b₄ := 16 * j₁ + j₂
            if (utf8SecondLo b₁ ≤ b₂ ∧ b₂ ≤ utf8SecondHi b₁) ∧
                (0x80 ≤ b₃ ∧ b₃ ≤ 0xBF) ∧ (0x80 ≤ b₄ ∧ b₄ ≤ 0xBF) then
              (decodeAux rest₂).map
                (fun tail =>
                  Char.ofNat ((b₁ - 0xF0) * 262144 + (b₂ - 0x80) * 4096 +
                    (b₃ - 0x80) * 64 + (b₄ - 0x80)) :: tail)
            else none
          | _, _, _, _, _, _ => none
        | _ => none
      else none
    | _, _ => none
  | '%' :: _ :: [] => none
  | '%' :: [] => none
  | c :: rest => (decodeAux rest).map (fun tail => c :: tail)

/-- JS `decodeURIComponent`; `none` models a thrown `URIError`. -/
def decodeURIComponent (s : String) : Option String :=
  (decodeAux s.data).map (fun cs => (⟨cs⟩ : String))

--========================================--
-- Route table (src/routes.ts) and matcher (matchRoute)
--========================================--

/-- The `Routes` record of the `Router` class: one insertion-ordered table
per supported method. Handlers are opaque values of type `α`. -/
structure Routes (α : Type) where
  post : List (String × α)
  get : List (String × α)
  put : List (String × α)
  update : List (String × α)
  delete : List (String × α)

/-- The `Router` constructor: five empty tables. -/
def Routes.empty {α : Type} : Routes α := ⟨[], [], [], [], []⟩

/-- `Router.get(path, callback)`: `this.routes.get.set(path, callback)`. -/
def Routes.addGet {α : Type} (r : Routes α) (path : String) (cb : α) : Routes α :=
  { r with get := mapSet r.get path cb }

/-- `Router.post(path, callback)`. -/
def Routes.addPost {α : Type} (r : Routes α) (path : String) (cb : α) : Routes α :=
  { r with post := mapSet r.post path cb }

/-- `Router.put(path, callback)`. -/
def Routes.addPut {α : Type} (r : Routes α) (path : String) (cb : α) : Routes α :=
  { r with put := mapSet r.put path cb }

/-- `Router.update(path, callback)`. -/
def Routes.addUpdate {α : Type} (r : Routes α) (path : String) (cb : α) : Routes α :=
  { r with update := mapSet r.update path cb }

/-- `Router.delete(path, callback)`. -/
def Routes.addDelete {α : Type} (r : Routes α) (path : String) (cb : α) : Routes α :=
  { r with delete := mapSet r.delete path cb }

/-- Exceptions that the modelled pipeline code can raise. -/
inductive JsErr where
  | typeError
  | uriError
  deriving DecidableEq, Repr

/-- The inner segment loop of `matchRoute`: walk pattern segments and path
segments pairwise, accumulating `params` (a JS object, hence `mapSet`).
A `:`-prefixed pattern segment percent-decodes the actual segment and
binds it (a decode failure is the `URIError` thrown by
`decodeURIComponent`); a literal segment must be exactly equal, else the
pattern is rejected (`some none`). -/
def matchSegs : List String → List String → List (String × String) →
    Except JsErr (Option (List (String × String)))
  | [], [], params => .ok (some params)
  | p :: ps, actual :: as, params =>
    if jsStartsWith p ":" then
      match decodeURIComponent actual with
      | none => .error .uriError
      | some v => matchSegs ps as (mapSet params (jsSlice1 p) v)
    else if p ≠ actual then
      .ok none
    else
      matchSegs ps as params
  | _, _, _ => .ok none

/-- `matchRoute(path, routes)`: iterate the per-method table in insertion
order; skip a pattern whose non-empty segment count differs from the
path's; otherwise run the segment loop, returning the first full match
(`some handler` with its params) or `(none, {})` when no pattern matches.
`.error` marks the `URIError` of a failed percent-decode. -/
def matchRoute {α : Type} (path : String) :
    List (String × α) → Except JsErr (Option α × List (String × String))
  | [] => .ok (none, [])
  | (pattern, handler) :: rest =>
    let patternParts := splitSegs pattern
    let pathParts := splitSegs path
    if patternParts.length ≠ pathParts.length then
      matchRoute path rest
    else
      match matchSegs patternParts pathParts [] with
      | .error e => .error e
      | .ok (some params) => .ok (some handler, params)
      | .ok none => matchRoute path rest

/-- `this.routes[method.toLowerCase() as keyof typeof this.routes]`: the
per-method table, or `none` (JS `undefined`) when the lower-cased method
is none of the five keys. -/
def methodTable {α : Type} (r : Routes α) (method : String) :
    Option (List (String × α)) :=
  let key := jsToLower method
  if key = "post" then some r.post
  else if key = "get" then some r.get
  else if key = "put" then some r.put
  else if key = "update" then some r.update
  else if key = "delete" then some r.delete
  else none

--========================================--
-- Body parsing and dispatch (setupRequestHandling, end handler)
--========================================--

/-- Structured values produced by `JSON.parse`. -/
inductive Json where
  | null
  | bool (b : Bool)
  | num (n : Int)
  | str (s : String)
  | arr (elems : List Json)
  | obj (fields : List (String × Json))

/-- The end-handler's body-parsing step: parse the buffered body as JSON
only when the declared content type (absent modelled as `none`, read with
`|| ""`) contains `"application/json"`; `JSON.parse(body || "{}")` is the
platform builtin, passed in as `jsonParse` with `none` standing for a
thrown parse error, which the `try`/`catch` turns into `{}`; any other
content type yields `{}` directly. -/
def parseBody (jsonParse : String → Option Json) (contentType? : Option String)
    (body : String) : Json :=
  let contentType := contentType?.getD ""
  if strIncludes contentType "application/json" then
    match jsonParse (jsOrStr body "\x7b\x7d") with
    | some v => v
    | none => Json.obj []
  else
    Json.obj []

/-- An HTTP response as far as the modelled pipeline writes one: status
line plus the headers and body written by this step. -/
structure HttpResponse where
  status : Int
  statusMessage : String
  headers : List (String × String)
  body : String
  deriving DecidableEq, Repr

/-- The 404 branch: `res.writeHead(404, "URL Endpoint not found");
res.end()` — no headers set, empty body. -/
def notFoundResponse : HttpResponse :=
  { status := 404
    statusMessage := "URL Endpoint not found"
    headers := []
    body := "" }

/-- Terminal outcome of the routing part of the end handler. -/
inductive PResult (α : Type) where
  | dispatched (handler : α) (params : List (String × String)) (body : Json)
  | respond404 (resp : HttpResponse)

/-- The request end handler after body buffering (source lines 150–197,
admission already granted): derive the method (`(req.method || "GET")
.toUpperCase()`), parse the body, look up the per-method table and run
`matchRoute`, then either dispatch to the handler (with its params and the
parsed body) or emit the 404 response. `.error .typeError` models the
`TypeError` of calling `.entries()` on the `undefined` table of an
unsupported method; `.error .uriError` propagates out of `matchRoute`. -/
def handleRequest {α : Type} (jsonParse : String → Option Json) (r : Routes α)
    (method? : Option String) (path : String) (contentType? : Option String)
    (body : String) : Except JsErr (PResult α) :=
  let method := jsToUpper (method?.getD "GET")
  let bodyVal := parseBody jsonParse contentType? body
  match methodTable r method with
  | none => .error .typeError
  | some tbl =>
    match matchRoute path tbl with
    | .error e => .error e
    | .ok (some handler, params) => .ok (.dispatched handler params bodyVal)
    | .ok (none, _) => .ok (.respond404 notFoundResponse)

--========================================--
-- Security headers (audo constructor defaults + applySecurityHeaders)
--========================================--

/-- A JS value that is either a boolean or a string
(`strictTransportSecurity` / `xssProtection` option values). -/
inductive JsStrBool where
  | bool (b : Bool)
  | str (s : String)
  deriving DecidableEq, Repr

/-- Presence of an optional property on the options object handed to the
`audo` constructor: missing key, key explicitly set to `undefined`, or a
real value. The spread `{...defaultOptions, ...options}` distinguishes the
first case (default survives) from the second (default overwritten). -/
inductive JsField (α : Type) where
  | absent
  | undef
  | given (v : α)
  deriving DecidableEq, Repr

/-- The security-header fields of the `Options` object passed by the
caller (the performance and rate-limit fields do not feed
`applySecurityHeaders` and are not modelled here). -/
structure OptionsIn where
  disablePoweredBy : JsField Bool
  strictTransportSecurity : JsField JsStrBool
  contentSecurityPolicy : JsField String
  xssProtection : JsField JsStrBool
  frameOptions : JsField String
  contentTypeOptions : JsField Bool
  deriving DecidableEq, Repr

/-- An options object with every key absent (`new audo(host, port)` or
`new audo(host, port, {})`). -/
def OptionsIn.empty : OptionsIn :=
  ⟨.absent, .absent, .absent, .absent, .absent, .absent⟩

/-- The merged options after the spread: each field is now a definite JS
value, `none` standing for `undefined`. -/
structure MergedOptions where
  disablePoweredBy : Option Bool
  strictTransportSecurity : Option JsStrBool
  contentSecurityPolicy : Option String
  xssProtection : Option JsStrBool
  frameOptions : Option String
  contentTypeOptions : Option Bool
  deriving DecidableEq, Repr

/-- One field of `{...defaultOptions, ...options}`: an absent key keeps
the default, a key present as `undefined` overwrites it with `undefined`,
a real value overwrites it with that value. -/
def mergeField {α : Type} (dflt : Option α) : JsField α → Option α
  | .absent => dflt
  | .undef => none
  | .given v => some v

/-- `defaultOptions` of the `audo` constructor, restricted to the
security-header fields: `disablePoweredBy: true`,
`strictTransportSecurity: true`, `xssProtection: true`,
`frameOptions: "DENY"`, `contentTypeOptions: true`, and no default for
`contentSecurityPolicy`. -/
def mergeDefaults (o : OptionsIn) : MergedOptions :=
  { disablePoweredBy := mergeField (some true) o.disablePoweredBy
    strictTransportSecurity := mergeField (some (.bool true)) o.strictTransportSecurity
    contentSecurityPolicy := mergeField none o.contentSecurityPolicy
    xssProtection := mergeField (some (.bool true)) o.xssProtection
    frameOptions := mergeField (some "DENY") o.frameOptions
    contentTypeOptions := mergeField (some true) o.contentTypeOptions }

/-- JS truthiness of a possibly-undefined boolean. -/
def truthyB : Option Bool → Bool
  | none => false
  | some b => b

/-- JS truthiness of a possibly-undefined string (empty string is falsy). -/
def truthyS : Option String → Bool
  | none => false
  | some s => s ≠ ""

/-- JS truthiness of a possibly-undefined boolean-or-string. -/
def truthySB : Option JsStrBool → Bool
  | none => false
  | some (.bool b) => b
  | some (.str s) => s ≠ ""

/-- The HSTS header value: the option itself when it is a string
(`typeof === "string"`), the default `max-age` policy otherwise. -/
def hstsValue : Option JsStrBool → String
  | some (.str s) => s
  | _ => "max-age=31536000; includeSubDomains"

/-- The X-XSS-Protection header value: the option itself when a string,
the default `1; mode=block` otherwise. -/
def xssValue : Option JsStrBool → String
  | some (.str s) => s
  | _ => "1; mode=block"

/-- What `applySecurityHeaders` did to the response: whether
`removeHeader("X-Powered-By")` ran, and the headers it set, in order. -/
structure SecHeaders where
  removedPoweredBy : Bool
  headers : List (String × String)
  deriving DecidableEq, Repr

/-- `applySecurityHeaders(res, options)` on the merged options: each
header guarded by the truthiness of its own option field, mirroring the
source's six independent `if` blocks. -/
def applySecurityHeaders (options : MergedOptions) : SecHeaders :=
  let h₀ : List (String × String) := []
  let h₁ :=
    if truthySB options.strictTransportSecurity then
      mapSet h₀ "Strict-Transport-Security" (hstsValue options.strictTransportSecurity)
    else h₀
  let h₂ :=
    if truthyS options.contentSecurityPolicy then
      mapSet h₁ "Content-Security-Policy" (options.contentSecurityPolicy.getD "")
    else h₁
  let h₃ :=
    if truthySB options.xssProtection then
      mapSet h₂ "X-XSS-Protection" (xssValue options.xssProtection)
    else h₂
  let h₄ :=
    if truthyS options.frameOptions then
      mapSet h₃ "X-Frame-Options" (options.frameOptions.getD "")
    else h₃
  let h₅ :=
    if truthyB options.contentTypeOptions then
      mapSet h₄ "X-Content-Type-Options" "nosniff"
    else h₄
  { removedPoweredBy := truthyB options.disablePoweredBy
    headers := h₅ }

--========================================--
-- Claims about the rate limiter
--========================================--

/-- Claim C4: for every key with no existing rate-limit entry, `check`
creates an entry with `count = 1` and `resetTime = now + windowMs`, and
returns `allowed = true` with `remaining = max - 1`. -/
theorem C4_first_check_admitted (rl : RateLimiter) (now : Int) (ip : String)
    (h : mapGet rl.store ip = none) :
    rl.check now ip =
      ({ rl with store := mapSet rl.store ip ⟨1, now + rl.windowMs⟩ },
        ⟨true, rl.max - 1⟩) := by
  simp [RateLimiter.check, h]

theorem C4_first_check_admitted_witness :
    mapGet (mkRateLimiter 1000 5 none none).store "1.2.3.4" = none ∧
    (mkRateLimiter 1000 5 none none).check 700 "1.2.3.4" =
      ({ (mkRateLimiter 1000 5 none none) with
          store := mapSet (mkRateLimiter 1000 5 none none).store "1.2.3.4"
            ⟨1, 700 + (mkRateLimiter 1000 5 none none).windowMs⟩ },
        ⟨true, (mkRateLimiter 1000 5 none none).max - 1⟩) :=
  ⟨rfl, C4_first_check_admitted (mkRateLimiter 1000 5 none none) 700 "1.2.3.4" rfl⟩

/-- Claim C5: for every key whose entry is within its window
(`now ≤ resetTime`) and has `count ≥ max`, `check` returns
`allowed = false` with `remaining = 0` and leaves the limiter — store
included — entirely unchanged. -/
theorem C5_denied_unchanged (rl : RateLimiter) (now : Int) (ip : String) (e : RLEntry)
    (hm : mapGet rl.store ip = some e) (hwin : now ≤ e.resetTime)
    (hcnt : e.count ≥ rl.max) :
    rl.check now ip = (rl, ⟨false, 0⟩) := by
  have h1 : ¬ now > e.resetTime := by omega
  simp [RateLimiter.check, hm, h1, hcnt]

theorem C5_denied_unchanged_witness :
    mapGet (⟨1000, 2, "m", 429, [("k", ⟨2, 900⟩)]⟩ : RateLimiter).store "k" =
      some ⟨2, 900⟩ ∧
    (500 : Int) ≤ 900 ∧ (2 : Int) ≥ 2 ∧
    (⟨1000, 2, "m", 429, [("k", ⟨2, 900⟩)]⟩ : RateLimiter).check 500 "k" =
      (⟨1000, 2, "m", 429, [("k", ⟨2, 900⟩)]⟩, ⟨false, 0⟩) :=
  ⟨rfl, by omega, by omega,
    C5_denied_unchanged ⟨1000, 2, "m", 429, [("k", ⟨2, 900⟩)]⟩ 500 "k" ⟨2, 900⟩
      rfl (by decide) (by decide)⟩

/-- The limiter used to refute claim C3's "≥" window test: `max = 2`,
an entry for key "k" already at the limit whose window ends exactly at
instant 500. -/
def c3Limiter : RateLimiter :=
  { windowMs := 1000, max := 2, message := "m", statusCode := 429
    store := [("k", ⟨2, 500⟩)] }

/-- Claim C3 as stated is false: at `now = resetTime` (so `now ≥ resetTime`,
the boundary the claim says is already expired) a full entry is NOT
admitted-and-reset — the source's test is the strict `now > entry.resetTime`,
so this call takes the `count >= max` branch and is denied with
`remaining = 0`, the store untouched. -/
theorem C3_counterexample :
    (500 : Int) ≥ (500 : Int) ∧
    mapGet c3Limiter.store "k" = some ⟨2, 500⟩ ∧
    (c3Limiter.check 500 "k").2.allowed = false ∧
    (c3Limiter.check 500 "k").2.remaining = 0 ∧
    (c3Limiter.check 500 "k").1 = c3Limiter := by
  refine ⟨by omega, rfl, rfl, rfl, rfl⟩

/-- Claim C3 (amended): only once the window boundary has been STRICTLY
crossed (`now > resetTime`) is the next `check` for that key admitted with
`remaining = max - 1`, resetting the stored count to 1 and `resetTime` to
`now + windowMs`, regardless of the prior count. -/
theorem C3_window_reset (rl : RateLimiter) (now : Int) (ip : String) (e : RLEntry)
    (hm : mapGet rl.store ip = some e) (hexp : now > e.resetTime) :
    rl.check now ip =
      ({ rl with store := mapSet rl.store ip ⟨1, now + rl.windowMs⟩ },
        ⟨true, rl.max - 1⟩) := by
  simp [RateLimiter.check, hm, hexp]

theorem C3_window_reset_witness :
    mapGet (⟨1000, 2, "m", 429, [("k", ⟨2, 500⟩)]⟩ : RateLimiter).store "k" =
      some ⟨2, 500⟩ ∧
    (501 : Int) > 500 ∧
    (⟨1000, 2, "m", 429, [("k", ⟨2, 500⟩)]⟩ : RateLimiter).check 501 "k" =
      ({ (⟨1000, 2, "m", 429, [("k", ⟨2, 500⟩)]⟩ : RateLimiter) with
          store := mapSet (⟨1000, 2, "m", 429, [("k", ⟨2, 500⟩)]⟩ : RateLimiter).store
            "k" ⟨1, 501 + 1000⟩ },
        ⟨true, 2 - 1⟩) :=
  ⟨rfl, by omega,
    C3_window_reset ⟨1000, 2, "m", 429, [("k", ⟨2, 500⟩)]⟩ 501 "k" ⟨2, 500⟩
      rfl (by decide)⟩

/-- The per-entry bound claim C10 asserts of every stored entry. -/
def limiterInv (rl : RateLimiter) : Prop :=
  ∀ k e, mapGet rl.store k = some e → 1 ≤ e.count ∧ e.count ≤ rl.max

theorem check_fst_max (rl : RateLimiter) (now : Int) (ip : String) :
    ((rl.check now ip).1).max = rl.max := by
  unfold RateLimiter.check
  rcases mapGet rl.store ip with _ | entry
  · rfl
  · dsimp only
    split
    · rfl
    · split <;> rfl

theorem check_fst_windowMs (rl : RateLimiter) (now : Int) (ip : String) :
    ((rl.check now ip).1).windowMs = rl.windowMs := by
  unfold RateLimiter.check
  rcases mapGet rl.store ip with _ | entry
  · rfl
  · dsimp only
    split
    · rfl
    · split <;> rfl

theorem limiterInv_check (rl : RateLimiter) (now : Int) (ip : String)
    (hmax : 1 ≤ rl.max) (h : limiterInv rl) : limiterInv (rl.check now ip).1 := by
  intro k e hk
  rw [check_fst_max]
  revert hk
  unfold RateLimiter.check
  rcases hm : mapGet rl.store ip with _ | entry
  · dsimp only
    rw [mapGet_mapSet]
    split
    · intro he
      obtain rfl : (⟨1, now + rl.windowMs⟩ : RLEntry) = e := by
        exact Option.some.inj he
      exact ⟨le_refl 1, hmax⟩
    · exact h k e
  · dsimp only
    split
    · dsimp only
      rw [mapGet_mapSet]
      split
      · intro he
        obtain rfl : (⟨1, now + rl.windowMs⟩ : RLEntry) = e := by
          exact Option.some.inj he
        exact ⟨le_refl 1, hmax⟩
      · exact h k e
    · split
      · exact h k e
      · dsimp only
        rw [mapGet_mapSet]
        split
        · intro he
          obtain rfl : (⟨entry.count + 1, entry.resetTime⟩ : RLEntry) = e := by
            exact Option.some.inj he
          have hb := h ip entry hm
          dsimp only
          omega
        · exact h k e

theorem limiterInv_runChecks (calls : List (Int × String)) :
    ∀ rl : RateLimiter, 1 ≤ rl.max → limiterInv rl →
      limiterInv (runChecks rl calls) ∧ (runChecks rl calls).max = rl.max := by
  induction calls with
  | nil => intro rl _ h; exact ⟨h, rfl⟩
  | cons c rest ih =>
    intro rl hmax h
    obtain ⟨now, ip⟩ := c
    have hmax' : 1 ≤ ((rl.check now ip).1).max := by rw [check_fst_max]; exact hmax
    have h' := limiterInv_check rl now ip hmax h
    have := ih (rl.check now ip).1 hmax' h'
    refine ⟨this.1, ?_⟩
    rw [runChecks]
    rw [this.2, check_fst_max]

/-- Claim C10 (implicit invariant): for a rate limiter configured with
`max ≥ 1` and `windowMs > 0`, after any sequence of `check` calls —
arbitrary keys and arbitrary clock readings — every stored entry
satisfies `1 ≤ count ≤ max`: the count is only incremented while strictly
below `max`, so it never exceeds `max`. -/
theorem C10_count_bounded (windowMs max : Int) (message? : Option String)
    (statusCode? : Option Int) (hmax : 1 ≤ max) (_hwin : 0 < windowMs)
    (calls : List (Int × String)) (k : String) (e : RLEntry)
    (hget : mapGet (runChecks (mkRateLimiter windowMs max message? statusCode?)
      calls).store k = some e) :
    1 ≤ e.count ∧ e.count ≤ max := by
  have hbase : limiterInv (mkRateLimiter windowMs max message? statusCode?) := by
    intro k' e' h'
    simp [mkRateLimiter, mapGet] at h'
  have := limiterInv_runChecks calls (mkRateLimiter windowMs max message? statusCode?)
    hmax hbase
  have hb := this.1 k e hget
  rw [this.2] at hb
  exact hb

theorem C10_count_bounded_witness :
    (1 : Int) ≤ 2 ∧ (0 : Int) < 1000 ∧
    mapGet (runChecks (mkRateLimiter 1000 2 none none)
      [(0, "a"), (1, "a"), (2, "a")]).store "a" = some ⟨2, 1000⟩ ∧
    (1 ≤ (⟨2, 1000⟩ : RLEntry).count ∧ (⟨2, 1000⟩ : RLEntry).count ≤ 2) :=
  ⟨by omega, by omega, by decide,
    C10_count_bounded 1000 2 none none (by omega) (by omega)
      [(0, "a"), (1, "a"), (2, "a")] "a" ⟨2, 1000⟩ (by decide)⟩

--========================================--
-- Claims about routing and the request pipeline
--========================================--

/-- Claim C2 is violated by the code: the pipeline CAN throw past its step
boundaries. A request whose method is outside the five tables (here
`OPTIONS`) makes `this.routes[method.toLowerCase()]` `undefined`, so
`matchRoute` calls `.entries()` on `undefined` — a `TypeError`; and a
request whose path has a malformed percent-escape in a segment matched by
a `:param` (here `GET /user/%` against `/user/:id`) makes
`decodeURIComponent` throw a `URIError`. Both escape the `end` handler
instead of ending in a terminal response action. -/
theorem C2_pipeline_can_throw :
    handleRequest (fun _ => none) (⟨[], [("/user/:id", 1)], [], [], []⟩ : Routes Nat)
      (some "OPTIONS") "/" none "" = .error .typeError ∧
    handleRequest (fun _ => none) (⟨[], [("/user/:id", 1)], [], [], []⟩ : Routes Nat)
      (some "GET") "/user/%" none "" = .error .uriError :=
  ⟨rfl, rfl⟩

/-- Claim C6: with `/user/:id` registered before `/user/admin` under GET,
a GET request to `/user/admin` is matched by the first registered pattern,
binding `id` to `"admin"` instead of reaching the literal route; and the
per-method table handed to `matchRoute` for GET is `routes.get` alone, so
patterns registered for the other methods (the unconstrained fields of
`r`) are never consulted. -/
theorem C6_insertion_order_wins (r : Routes Nat) (h : r.get = []) :
    methodTable ((r.addGet "/user/:id" 1).addGet "/user/admin" 2) "GET" =
      some [("/user/:id", 1), ("/user/admin", 2)] ∧
    matchRoute "/user/admin" [("/user/:id", 1), ("/user/admin", 2)] =
      .ok (some 1, [("id", "admin")]) := by
  constructor
  · have hget : ((r.addGet "/user/:id" 1).addGet "/user/admin" 2).get =
        [("/user/:id", 1), ("/user/admin", 2)] := by
      simp [Routes.addGet, h, mapSet]
    unfold methodTable
    rw [if_neg (by decide), if_pos (by decide), hget]
  · rfl

theorem C6_insertion_order_wins_witness :
    (Routes.empty : Routes Nat).get = [] ∧
    (methodTable (((Routes.empty : Routes Nat).addGet "/user/:id" 1).addGet
        "/user/admin" 2) "GET" =
      some [("/user/:id", 1), ("/user/admin", 2)] ∧
    matchRoute "/user/admin" [("/user/:id", 1), ("/user/admin", 2)] =
      .ok (some 1, [("id", "admin")])) :=
  ⟨rfl, C6_insertion_order_wins Routes.empty rfl⟩

/-- Claim C7: route matching only sees the non-empty `/`-segments, so the
match result is unchanged by any rewriting of path or pattern that keeps
those segments (adding/removing leading, trailing or repeated slashes);
and a pattern whose segment count differs from the path's is skipped
outright, binding nothing. -/
theorem C7_slash_normalization :
    (∀ (α : Type) (routes : List (String × α)) (path₁ path₂ : String),
      splitSegs path₁ = splitSegs path₂ →
      matchRoute path₁ routes = matchRoute path₂ routes) ∧
    (∀ (α : Type) (path pat₁ pat₂ : String) (cb : α) (rest : List (String × α)),
      splitSegs pat₁ = splitSegs pat₂ →
      matchRoute path ((pat₁, cb) :: rest) = matchRoute path ((pat₂, cb) :: rest)) ∧
    (∀ (α : Type) (path pat : String) (cb : α) (rest : List (String × α)),
      (splitSegs pat).length ≠ (splitSegs path).length →
      matchRoute path ((pat, cb) :: rest) = matchRoute path rest) := by
  refine ⟨?_, ?_, ?_⟩
  · intro α routes path₁ path₂ hp
    induction routes with
    | nil => rfl
    | cons hd rest ih =>
      obtain ⟨pat, cb⟩ := hd
      simp only [matchRoute, hp, ih]
  · intro α path pat₁ pat₂ cb rest hp
    simp only [matchRoute, hp]
  · intro α path pat cb rest hne
    simp only [matchRoute]
    rw [if_pos hne]

theorem C7_slash_normalization_witness :
    (splitSegs "//user//admin/" = splitSegs "/user/admin" ∧
      matchRoute "//user//admin/" [("/user/:id", 0)] =
        matchRoute "/user/admin" [("/user/:id", 0)]) ∧
    (splitSegs "user/:id/" = splitSegs "/user/:id" ∧
      matchRoute "/user/admin" [("user/:id/", 0)] =
        matchRoute "/user/admin" [("/user/:id", 0)]) ∧
    ((splitSegs "/user/:id/extra").length ≠ (splitSegs "/user/admin").length ∧
      matchRoute "/user/admin" [("/user/:id/extra", 0), ("/user/admin", 1)] =
        matchRoute "/user/admin" [("/user/admin", 1)]) :=
  ⟨⟨by decide, C7_slash_normalization.1 Nat [("/user/:id", 0)]
      "//user//admin/" "/user/admin" (by decide)⟩,
    ⟨by decide, C7_slash_normalization.2.1 Nat "/user/admin" "user/:id/" "/user/:id"
      0 [] (by decide)⟩,
    ⟨by decide, C7_slash_normalization.2.2 Nat "/user/admin" "/user/:id/extra"
      0 [("/user/admin", 1)] (by decide)⟩⟩

theorem matchRoute_notFound_params {α : Type} (path : String)
    (tbl : List (String × α)) (ps : List (String × String))
    (h : matchRoute path tbl = .ok (none, ps)) : ps = [] := by
  induction tbl with
  | nil =>
    simp only [matchRoute] at h
    exact (Prod.mk.injEq _ _ _ _ ▸ (Except.ok.inj h)).2.symm
  | cons hd rest ih =>
    obtain ⟨pat, cb⟩ := hd
    simp only [matchRoute] at h
    revert h
    split
    · exact ih
    · rcases hms : matchSegs (splitSegs pat) (splitSegs path) [] with e | params?
      · intro h; cases h
      · rcases params? with _ | params
        · exact fun h => ih h
        · intro h
          cases Except.ok.inj h

/-- Claim C9: whenever the matcher finds no pattern for the request's
method and path, it reports not-found with an empty parameter mapping,
and the end handler emits the 404 response: status 404, empty body, and
no Content-Type (indeed no header at all) set by that branch. -/
theorem C9_miss_gives_404 {α : Type} (jsonParse : String → Option Json)
    (r : Routes α) (method? : Option String) (path : String)
    (contentType? : Option String) (body : String)
    (tbl : List (String × α)) (ps : List (String × String))
    (htbl : methodTable r (jsToUpper (method?.getD "GET")) = some tbl)
    (hmatch : matchRoute path tbl = .ok (none, ps)) :
    ps = [] ∧
    handleRequest jsonParse r method? path contentType? body =
      .ok (.respond404 notFoundResponse) ∧
    notFoundResponse.status = 404 ∧
    notFoundResponse.body = "" ∧
    mapGet notFoundResponse.headers "Content-Type" = none := by
  refine ⟨matchRoute_notFound_params path tbl ps hmatch, ?_, rfl, rfl, rfl⟩
  simp only [handleRequest, htbl, hmatch]

theorem C9_miss_gives_404_witness :
    methodTable (Routes.empty : Routes Nat) (jsToUpper ((some "GET").getD "GET")) =
      some [] ∧
    matchRoute "/missing" ([] : List (String × Nat)) = .ok (none, []) ∧
    (([] : List (String × String)) = [] ∧
      handleRequest (fun _ => none) (Routes.empty : Routes Nat) (some "GET")
        "/missing" none "" = .ok (.respond404 notFoundResponse) ∧
      notFoundResponse.status = 404 ∧
      notFoundResponse.body = "" ∧
      mapGet notFoundResponse.headers "Content-Type" = none) :=
  ⟨rfl, rfl,
    C9_miss_gives_404 (fun _ => none) Routes.empty (some "GET") "/missing" none ""
      [] [] rfl rfl⟩

/-- Claim C8: the buffered body is handed to `JSON.parse` only when the
declared content type contains `"application/json"`; a non-matching
content type, or a parse failure (modelled by `jsonParse` returning
`none`, as the builtin's throw), leaves the handler an empty object, and
the step is total — it never fails the request. `jsonParse` is quantified,
so this holds whatever the platform parser does. -/
theorem C8_body_parse_recovers (jsonParse : String → Option Json)
    (contentType? : Option String) (body : String) :
    (strIncludes (contentType?.getD "") "application/json" = false →
      parseBody jsonParse contentType? body = Json.obj []) ∧
    (strIncludes (contentType?.getD "") "application/json" = true →
      jsonParse (jsOrStr body "\x7b\x7d") = none →
      parseBody jsonParse contentType? body = Json.obj []) ∧
    (∀ v, strIncludes (contentType?.getD "") "application/json" = true →
      jsonParse (jsOrStr body "\x7b\x7d") = some v →
      parseBody jsonParse contentType? body = v) := by
  refine ⟨?_, ?_, ?_⟩
  · intro hct
    simp [parseBody, hct]
  · intro hct hp
    simp [parseBody, hct, hp]
  · intro v hct hp
    simp [parseBody, hct, hp]

theorem C8_body_parse_recovers_witness :
    (strIncludes "text/plain" "application/json" = false ∧
      parseBody (fun _ => none) (some "text/plain") "ignored" = Json.obj []) ∧
    (strIncludes "application/json" "application/json" = true ∧
      (fun (_ : String) => (none : Option Json)) (jsOrStr "not json" "\x7b\x7d") = none ∧
      parseBody (fun _ => none) (some "application/json") "not json" = Json.obj []) ∧
    (strIncludes "application/json" "application/json" = true ∧
      (fun (_ : String) => some Json.null) (jsOrStr "null" "\x7b\x7d") = some Json.null ∧
      parseBody (fun _ => some Json.null) (some "application/json") "null" = Json.null) :=
  ⟨⟨by decide, (C8_body_parse_recovers (fun _ => none) (some "text/plain")
      "ignored").1 (by decide)⟩,
    ⟨by decide, rfl, (C8_body_parse_recovers (fun _ => none)
      (some "application/json") "not json").2.1 (by decide) rfl⟩,
    ⟨by decide, rfl, (C8_body_parse_recovers (fun _ => some Json.null)
      (some "application/json") "null").2.2 Json.null (by decide) rfl⟩⟩

--========================================--
-- Claims about security-header injection
--========================================--

/-- Claim C1 as stated is false: a server constructed with an options
object in which every security flag is ABSENT does NOT omit the headers —
the constructor's `defaultOptions` spread fills the absent flags with
secure defaults, so e.g. `Strict-Transport-Security` is set to its default
value (and is in particular not omitted) for every request. -/
theorem C1_counterexample :
    mapGet (applySecurityHeaders (mergeDefaults OptionsIn.empty)).headers
      "Strict-Transport-Security" = some "max-age=31536000; includeSubDomains" ∧
    ¬ mapGet (applySecurityHeaders (mergeDefaults OptionsIn.empty)).headers
      "Strict-Transport-Security" = none := by
  refine ⟨rfl, ?_⟩
  intro h
  cases h.symm.trans (rfl :
    mapGet (applySecurityHeaders (mergeDefaults OptionsIn.empty)).headers
      "Strict-Transport-Security" = some "max-age=31536000; includeSubDomains")

/-- Claim C1 (amended): each security header written by
`applySecurityHeaders` is gated solely by its own field of the options
AFTER the constructor has merged `defaultOptions` — a flag absent from the
caller's options object receives its default (remove `X-Powered-By`, HSTS
`max-age=31536000; includeSubDomains`, `X-XSS-Protection 1; mode=block`,
`X-Frame-Options DENY`, `X-Content-Type-Options nosniff`;
`Content-Security-Policy` alone has no default and stays absent) — and a
header is omitted exactly when its merged flag is falsy (`false`,
`undefined`, or the empty string). -/
theorem C1_headers_gated (o : OptionsIn) :
    (applySecurityHeaders (mergeDefaults o)).removedPoweredBy =
      truthyB (mergeDefaults o).disablePoweredBy ∧
    mapGet (applySecurityHeaders (mergeDefaults o)).headers
        "Strict-Transport-Security" =
      (if truthySB (mergeDefaults o).strictTransportSecurity then
        some (hstsValue (mergeDefaults o).strictTransportSecurity) else none) ∧
    mapGet (applySecurityHeaders (mergeDefaults o)).headers
        "Content-Security-Policy" =
      (if truthyS (mergeDefaults o).contentSecurityPolicy then
        some ((mergeDefaults o).contentSecurityPolicy.getD "") else none) ∧
    mapGet (applySecurityHeaders (mergeDefaults o)).headers "X-XSS-Protection" =
      (if truthySB (mergeDefaults o).xssProtection then
        some (xssValue (mergeDefaults o).xssProtection) else none) ∧
    mapGet (applySecurityHeaders (mergeDefaults o)).headers "X-Frame-Options" =
      (if truthyS (mergeDefaults o).frameOptions then
        some ((mergeDefaults o).frameOptions.getD "") else none) ∧
    mapGet (applySecurityHeaders (mergeDefaults o)).headers
        "X-Content-Type-Options" =
      (if truthyB (mergeDefaults o).contentTypeOptions then
        some "nosniff" else none) ∧
    (o.contentSecurityPolicy = .absent →
      mapGet (applySecurityHeaders (mergeDefaults o)).headers
        "Content-Security-Policy" = none) := by
  have main :
      (applySecurityHeaders (mergeDefaults o)).removedPoweredBy =
        truthyB (mergeDefaults o).disablePoweredBy ∧
      mapGet (applySecurityHeaders (mergeDefaults o)).headers
          "Strict-Transport-Security" =
        (if truthySB (mergeDefaults o).strictTransportSecurity then
          some (hstsValue (mergeDefaults o).strictTransportSecurity) else none) ∧
      mapGet (applySecurityHeaders (mergeDefaults o)).headers
          "Content-Security-Policy" =
        (if truthyS (mergeDefaults o).contentSecurityPolicy then
          some ((mergeDefaults o).contentSecurityPolicy.getD "") else none) ∧
      mapGet (applySecurityHeaders (mergeDefaults o)).headers "X-XSS-Protection" =
        (if truthySB (mergeDefaults o).xssProtection then
          some (xssValue (mergeDefaults o).xssProtection) else none) ∧
      mapGet (applySecurityHeaders (mergeDefaults o)).headers "X-Frame-Options" =
        (if truthyS (mergeDefaults o).frameOptions then
          some ((mergeDefaults o).frameOptions.getD "") else none) ∧
      mapGet (applySecurityHeaders (mergeDefaults o)).headers
          "X-Content-Type-Options" =
        (if truthyB (mergeDefaults o).contentTypeOptions then
          some "nosniff" else none) := by
    cases h₁ : truthySB (mergeDefaults o).strictTransportSecurity <;>
      cases h₂ : truthyS (mergeDefaults o).contentSecurityPolicy <;>
      cases h₃ : truthySB (mergeDefaults o).xssProtection <;>
      cases h₄ : truthyS (mergeDefaults o).frameOptions <;>
      cases h₅ : truthyB (mergeDefaults o).contentTypeOptions <;>
      simp [applySecurityHeaders, mapGet, mapSet, h₁, h₂, h₃, h₄, h₅]
  refine ⟨main.1, main.2.1, main.2.2.1, main.2.2.2.1, main.2.2.2.2.1,
    main.2.2.2.2.2, ?_⟩
  intro habs
  rw [main.2.2.1]
  have : (mergeDefaults o).contentSecurityPolicy = none := by
    simp [mergeDefaults, habs, mergeField]
  rw [this]
  rfl

theorem C1_headers_gated_witness :
    OptionsIn.empty.contentSecurityPolicy = JsField.absent ∧
    ((applySecurityHeaders (mergeDefaults OptionsIn.empty)).removedPoweredBy =
        truthyB (mergeDefaults OptionsIn.empty).disablePoweredBy ∧
      mapGet (applySecurityHeaders (mergeDefaults OptionsIn.empty)).headers
          "Strict-Transport-Security" =
        (if truthySB (mergeDefaults OptionsIn.empty).strictTransportSecurity then
          some (hstsValue (mergeDefaults OptionsIn.empty).strictTransportSecurity)
        else none) ∧
      mapGet (applySecurityHeaders (mergeDefaults OptionsIn.empty)).headers
          "Content-Security-Policy" =
        (if truthyS (mergeDefaults OptionsIn.empty).contentSecurityPolicy then
          some ((mergeDefaults OptionsIn.empty).contentSecurityPolicy.getD "")
        else none) ∧
      mapGet (applySecurityHeaders (mergeDefaults OptionsIn.empty)).headers
          "X-XSS-Protection" =
        (if truthySB (mergeDefaults OptionsIn.empty).xssProtection then
          some (xssValue (mergeDefaults OptionsIn.empty).xssProtection) else none) ∧
      mapGet (applySecurityHeaders (mergeDefaults OptionsIn.empty)).headers
          "X-Frame-Options" =
        (if truthyS (mergeDefaults OptionsIn.empty).frameOptions then
          some ((mergeDefaults OptionsIn.empty).frameOptions.getD "") else none) ∧
      mapGet (applySecurityHeaders (mergeDefaults OptionsIn.empty)).headers
          "X-Content-Type-Options" =
        (if truthyB (mergeDefaults OptionsIn.empty).contentTypeOptions then
          some "nosniff" else none) ∧
      (OptionsIn.empty.contentSecurityPolicy = .absent →
        mapGet (applySecurityHeaders (mergeDefaults OptionsIn.empty)).headers
          "Content-Security-Policy" = none)) :=
  ⟨rfl, C1_headers_gated OptionsIn.empty⟩
